import Mathlib

/-!
Verification of the time-series transform core of the SMH dashboard:
the Heikin-Ashi candle transform, the anchored-VWAP transform, the
chart feed assembler's visible-range hint, and the fetch-once
cache-by-symbol data layer.  Prices and volumes are embedded as exact
rationals; the value of a VWAP point is an `Option ℚ` where `none`
stands for the non-finite number a JavaScript division by zero yields.
-/

namespace SMH

/-- One daily OHLCV bar (`HistoricalDataPoint` in `stockDataService.ts`). -/
structure HistoricalDataPoint where
  time : String
  «open» : ℚ
  high : ℚ
  low : ℚ
  close : ℚ
  volume : ℚ
  deriving Repr, DecidableEq, Inhabited

/-- The body of the arrow function passed to `data.map` in
`calculateHeikinAshi` (`stockDataService.ts` lines 172-186): `arr` is the
whole source array, `i` the index and `d` the bar at `i`. -/
def haBar (arr : List HistoricalDataPoint) (i : Nat) (d : HistoricalDataPoint) :
    HistoricalDataPoint :=
  let haClose := (d.«open» + d.high + d.low + d.close) / 4
  let haOpen := if i = 0 then d.«open»
    else ((arr.getD (i - 1) default).«open» + (arr.getD (i - 1) default).close) / 2
  let haHigh := max d.high (max haOpen haClose)
  let haLow := min d.low (min haOpen haClose)
  { time := d.time, «open» := haOpen, high := haHigh, low := haLow,
    close := haClose, volume := d.volume }

/-- Embedding of `calculateHeikinAshi` (`stockDataService.ts` lines 171-187):
`data.map((d, i, arr) => ...)` where `arr` is the source array itself. -/
def calculateHeikinAshi (data : List HistoricalDataPoint) : List HistoricalDataPoint :=
  (List.range data.length).map fun i => haBar data i (data.getD i default)

theorem calculateHeikinAshi_length (data : List HistoricalDataPoint) :
    (calculateHeikinAshi data).length = data.length := by
  simp [calculateHeikinAshi]

theorem calculateHeikinAshi_getElem (data : List HistoricalDataPoint) (i : Nat)
    (h : i < (calculateHeikinAshi data).length) :
    (calculateHeikinAshi data).getD i default
      = haBar data i (data.getD i default) := by
  rw [calculateHeikinAshi_length] at h
  rw [List.getD_eq_getElem _ _ (by simpa [calculateHeikinAshi_length] using h)]
  simp [calculateHeikinAshi]

/-- The two-bar scenario of the specification's testable properties:
bar 0 = {2024-01-01, O10, H12, L9, C11, V100}. -/
def specBar0 : HistoricalDataPoint :=
  { time := "2024-01-01", «open» := 10, high := 12, low := 9, close := 11, volume := 100 }

/-- The two-bar scenario of the specification's testable properties:
bar 1 = {2024-01-02, O11, H13, L10, C12, V200}. -/
def specBar1 : HistoricalDataPoint :=
  { time := "2024-01-02", «open» := 11, high := 13, low := 10, close := 12, volume := 200 }

/-- C1: on the spec's two-bar example the code's Heikin-Ashi open of the
second bar is `(open[0] + close[0]) / 2 = 10.5`, computed from the source
bar at index 0, not `(haOpen[0] + haClose[0]) / 2 = 10.25` as the
sequential Heikin-Ashi recurrence of the spec requires: the claimed
recurrence on derived values fails on the code. -/
theorem heikinAshi_code_uses_source_bar_at_spec_example :
    (calculateHeikinAshi [specBar0, specBar1]).map (fun b => b.«open»)
        = [10, 21 / 2]
      ∧ ((21 : ℚ) / 2) ≠ 41 / 4 := by
  constructor
  · norm_num [calculateHeikinAshi, haBar, specBar0, specBar1,
      List.range_succ]
  · norm_num

/-- C5: Heikin-Ashi output has the same length as the input and preserves
`time` and `volume` at every index. -/
theorem heikinAshi_preserves_length_time_volume (data : List HistoricalDataPoint) :
    (calculateHeikinAshi data).length = data.length
      ∧ (calculateHeikinAshi data).map (fun b => b.time) = data.map (fun b => b.time)
      ∧ (calculateHeikinAshi data).map (fun b => b.volume)
          = data.map (fun b => b.volume) := by
  refine ⟨calculateHeikinAshi_length data, ?_, ?_⟩
  · apply List.ext_getElem
    · simp [calculateHeikinAshi]
    · intro i h1 h2
      simp only [calculateHeikinAshi, List.getElem_map, List.getElem_range]
      have hi : i < data.length := by
        simpa [calculateHeikinAshi] using h1
      rw [List.getD_eq_getElem _ _ hi]
      rfl
  · apply List.ext_getElem
    · simp [calculateHeikinAshi]
    · intro i h1 h2
      simp only [calculateHeikinAshi, List.getElem_map, List.getElem_range]
      have hi : i < data.length := by
        simpa [calculateHeikinAshi] using h1
      rw [List.getD_eq_getElem _ _ hi]
      rfl

/-- Derived high is the max of source high, derived open and derived close,
so both derived open and close lie below it; dually for the derived low. -/
theorem haBar_bounds (arr : List HistoricalDataPoint) (i : Nat)
    (d : HistoricalDataPoint) :
    (haBar arr i d).low ≤ (haBar arr i d).«open»
      ∧ (haBar arr i d).«open» ≤ (haBar arr i d).high
      ∧ (haBar arr i d).low ≤ (haBar arr i d).close
      ∧ (haBar arr i d).close ≤ (haBar arr i d).high := by
  refine ⟨?_, ?_, ?_, ?_⟩ <;>
    simp [haBar, le_max_iff, min_le_iff, le_refl]

/-- C6: every Heikin-Ashi output bar satisfies
`haLow ≤ haOpen ≤ haHigh` and `haLow ≤ haClose ≤ haHigh`. -/
theorem heikinAshi_low_le_open_close_le_high (data : List HistoricalDataPoint)
    (i : Nat) (h : i < (calculateHeikinAshi data).length) :
    ((calculateHeikinAshi data).getD i default).low
        ≤ ((calculateHeikinAshi data).getD i default).«open»
      ∧ ((calculateHeikinAshi data).getD i default).«open»
          ≤ ((calculateHeikinAshi data).getD i default).high
      ∧ ((calculateHeikinAshi data).getD i default).low
          ≤ ((calculateHeikinAshi data).getD i default).close
      ∧ ((calculateHeikinAshi data).getD i default).close
          ≤ ((calculateHeikinAshi data).getD i default).high := by
  rw [calculateHeikinAshi_getElem data i h]
  exact haBar_bounds data i (data.getD i default)

/-- Witness for C6 at the spec's concrete bars, index 0. -/
theorem heikinAshi_low_le_open_close_le_high_witness :
    0 < (calculateHeikinAshi [specBar0, specBar1]).length
      ∧ (((calculateHeikinAshi [specBar0, specBar1]).getD 0 default).low
            ≤ ((calculateHeikinAshi [specBar0, specBar1]).getD 0 default).«open»
          ∧ ((calculateHeikinAshi [specBar0, specBar1]).getD 0 default).«open»
              ≤ ((calculateHeikinAshi [specBar0, specBar1]).getD 0 default).high
          ∧ ((calculateHeikinAshi [specBar0, specBar1]).getD 0 default).low
              ≤ ((calculateHeikinAshi [specBar0, specBar1]).getD 0 default).close
          ∧ ((calculateHeikinAshi [specBar0, specBar1]).getD 0 default).close
              ≤ ((calculateHeikinAshi [specBar0, specBar1]).getD 0 default).high) :=
  ⟨by decide, heikinAshi_low_le_open_close_le_high [specBar0, specBar1] 0 (by decide)⟩

/-- The `typicalPrice` local of `calculateAnchoredVWAP` (line 201). -/
def typicalPrice (d : HistoricalDataPoint) : ℚ := (d.high + d.low + d.close) / 3

/-- A `(time, value)` point emitted by `calculateAnchoredVWAP`; the value is
`none` when the JavaScript division produced a non-finite number. -/
structure VWAPPoint where
  time : String
  value : Option ℚ
  deriving Repr, DecidableEq, Inhabited

/-- JavaScript division as used for `cumulativeTPV / cumulativeVolume`:
a zero divisor yields a non-finite number (`NaN` or `±Infinity`),
modelled as `none`; otherwise the exact quotient. -/
def jsDiv (a b : ℚ) : Option ℚ := if b = 0 then none else some (a / b)

/-- The running-state loop of `calculateAnchoredVWAP` (lines 200-206):
`tpv` and `vol` carry the mutable `cumulativeTPV` and `cumulativeVolume`. -/
def vwapGo (tpv vol : ℚ) : List HistoricalDataPoint → List VWAPPoint
  | [] => []
  | d :: rest =>
    let tpv' := tpv + typicalPrice d * d.volume
    let vol' := vol + d.volume
    { time := d.time, value := jsDiv tpv' vol' } :: vwapGo tpv' vol' rest

/-- Embedding of `calculateAnchoredVWAP` (`stockDataService.ts` lines 195-207):
anchor at `Math.max(0, data.length - anchorDays)` and run the cumulative
VWAP over `data.slice(anchorIndex)`. -/
def calculateAnchoredVWAP (data : List HistoricalDataPoint) (anchorDays : ℤ) :
    List VWAPPoint :=
  vwapGo 0 0 (data.drop ((max 0 ((data.length : ℤ) - anchorDays)).toNat))

theorem vwapGo_length (l : List HistoricalDataPoint) (tpv vol : ℚ) :
    (vwapGo tpv vol l).length = l.length := by
  induction l generalizing tpv vol with
  | nil => rfl
  | cons d rest ih => simp [vwapGo, ih]

theorem calculateAnchoredVWAP_length (data : List HistoricalDataPoint)
    (anchorDays : ℤ) :
    (calculateAnchoredVWAP data anchorDays).length
      = data.length - (max 0 ((data.length : ℤ) - anchorDays)).toNat := by
  simp [calculateAnchoredVWAP, vwapGo_length]

theorem vwapGo_getD (l : List HistoricalDataPoint) (tpv vol : ℚ) (j : Nat)
    (hj : j < l.length) :
    (vwapGo tpv vol l).getD j default
      = { time := (l.getD j default).time,
          value := jsDiv
            (tpv + ((l.take (j + 1)).map fun d => typicalPrice d * d.volume).sum)
            (vol + ((l.take (j + 1)).map fun d => d.volume).sum) } := by
  induction l generalizing tpv vol j with
  | nil => simp at hj
  | cons d rest ih =>
    cases j with
    | zero =>
      simp [vwapGo, List.take_succ_cons]
    | succ j =>
      have hj' : j < rest.length := by simpa using hj
      simp only [vwapGo, List.getD_cons_succ, List.take_succ_cons, List.map_cons,
        List.sum_cons]
      rw [ih _ _ j hj']
      simp [add_assoc]

/-- C4: for `anchorDays ≥ 1` the anchored VWAP has
`min(anchorDays, len(bars))` points; point `j` carries the time of bar
`anchorIndex + j` and the volume-weighted average
`(Σ typicalPrice·volume) / (Σ volume)` over bars
`anchorIndex .. anchorIndex + j`. -/
theorem anchoredVWAP_window_average (data : List HistoricalDataPoint)
    (anchorDays : ℤ) (h : 1 ≤ anchorDays) :
    (calculateAnchoredVWAP data anchorDays).length
        = min anchorDays.toNat data.length
      ∧ ∀ j, j < (calculateAnchoredVWAP data anchorDays).length →
          ((calculateAnchoredVWAP data anchorDays).getD j default).time
              = (data.getD
                  ((max 0 ((data.length : ℤ) - anchorDays)).toNat + j) default).time
            ∧ ((calculateAnchoredVWAP data anchorDays).getD j default).value
                = jsDiv
                  ((((data.drop ((max 0 ((data.length : ℤ) - anchorDays)).toNat)).take
                      (j + 1)).map fun d => typicalPrice d * d.volume).sum)
                  ((((data.drop ((max 0 ((data.length : ℤ) - anchorDays)).toNat)).take
                      (j + 1)).map fun d => d.volume).sum) := by
  constructor
  · rw [calculateAnchoredVWAP_length]
    omega
  · intro j hj
    rw [calculateAnchoredVWAP_length] at hj
    have hjd : j < (data.drop ((max 0 ((data.length : ℤ) - anchorDays)).toNat)).length := by
      simpa using hj
    constructor
    · rw [calculateAnchoredVWAP, vwapGo_getD _ _ _ _ hjd]
      have hb : (max 0 ((data.length : ℤ) - anchorDays)).toNat + j < data.length := by
        omega
      rw [List.getD_eq_getElem _ _ hjd, List.getD_eq_getElem _ _ hb]
      simp
    · rw [calculateAnchoredVWAP, vwapGo_getD _ _ _ _ hjd]
      simp

/-- Witness for C4 at the spec's concrete scenario: `anchorDays = 1` on the
two-bar sequence yields exactly one point, equal to the last bar's typical
price `35/3`. -/
theorem anchoredVWAP_window_average_witness :
    (1 : ℤ) ≤ 1
      ∧ ((calculateAnchoredVWAP [specBar0, specBar1] 1).length
            = min (1 : ℤ).toNat [specBar0, specBar1].length
          ∧ ∀ j, j < (calculateAnchoredVWAP [specBar0, specBar1] 1).length →
              ((calculateAnchoredVWAP [specBar0, specBar1] 1).getD j default).time
                  = ([specBar0, specBar1].getD
                      ((max 0 (([specBar0, specBar1].length : ℤ) - 1)).toNat + j)
                      default).time
                ∧ ((calculateAnchoredVWAP [specBar0, specBar1] 1).getD j default).value
                    = jsDiv
                      (((([specBar0, specBar1].drop
                          ((max 0 (([specBar0, specBar1].length : ℤ) - 1)).toNat)).take
                          (j + 1)).map fun d => typicalPrice d * d.volume).sum)
                      (((([specBar0, specBar1].drop
                          ((max 0 (([specBar0, specBar1].length : ℤ) - 1)).toNat)).take
                          (j + 1)).map fun d => d.volume).sum))
      ∧ calculateAnchoredVWAP [specBar0, specBar1] 1
          = [{ time := "2024-01-02", value := some (35 / 3) }]
      ∧ typicalPrice specBar1 = 35 / 3 := by
  refine ⟨le_refl 1, anchoredVWAP_window_average [specBar0, specBar1] 1 (le_refl 1),
    ?_, ?_⟩
  · norm_num [calculateAnchoredVWAP, vwapGo, typicalPrice, jsDiv, specBar0, specBar1]
  · norm_num [typicalPrice, specBar1]

/-- C9: the anchored VWAP is total — it emits one point per iterated bar —
and when the cumulative volume up to point `j` is zero the emitted value is
the non-finite result of dividing by zero rather than an error. -/
theorem anchoredVWAP_zero_volume_nonfinite (data : List HistoricalDataPoint)
    (anchorDays : ℤ) :
    (calculateAnchoredVWAP data anchorDays).length
        = data.length - (max 0 ((data.length : ℤ) - anchorDays)).toNat
      ∧ ∀ j, j < (calculateAnchoredVWAP data anchorDays).length →
          ((((data.drop ((max 0 ((data.length : ℤ) - anchorDays)).toNat)).take
              (j + 1)).map fun d => d.volume).sum = 0 →
            ((calculateAnchoredVWAP data anchorDays).getD j default).value = none) := by
  refine ⟨calculateAnchoredVWAP_length data anchorDays, ?_⟩
  intro j hj hsum
  rw [calculateAnchoredVWAP_length] at hj
  have hjd : j < (data.drop ((max 0 ((data.length : ℤ) - anchorDays)).toNat)).length := by
    simpa using hj
  rw [calculateAnchoredVWAP, vwapGo_getD _ _ _ _ hjd]
  simp only [zero_add, jsDiv]
  rw [if_pos hsum]

/-- A single zero-volume bar, exercising the division-by-zero edge case. -/
def zeroVolBar : HistoricalDataPoint :=
  { time := "2024-01-03", «open» := 5, high := 6, low := 4, close := 5, volume := 0 }

/-- Witness for C9: a lone zero-volume bar with `anchorDays = 1` still
yields a point, whose value is non-finite. -/
theorem anchoredVWAP_zero_volume_nonfinite_witness :
    0 < (calculateAnchoredVWAP [zeroVolBar] 1).length
      ∧ ((([zeroVolBar].drop ((max 0 (([zeroVolBar].length : ℤ) - 1)).toNat)).take
          (0 + 1)).map fun d => d.volume).sum = 0
      ∧ ((calculateAnchoredVWAP [zeroVolBar] 1).getD 0 default).value = none := by
  refine ⟨?_, ?_, ?_⟩
  · rw [calculateAnchoredVWAP_length]
    norm_num
  · norm_num [zeroVolBar]
  · exact (anchoredVWAP_zero_volume_nonfinite [zeroVolBar] 1).2 0
      (by rw [calculateAnchoredVWAP_length]; norm_num)
      (by norm_num [zeroVolBar])

/-- C10: for `anchorDays ≤ 0` the anchor index clamps at or beyond the end
of the sequence, so no bars are iterated and the output is empty. -/
theorem anchoredVWAP_nonpositive_anchor_empty (data : List HistoricalDataPoint)
    (anchorDays : ℤ) (h : anchorDays ≤ 0) :
    calculateAnchoredVWAP data anchorDays = [] := by
  have hle : data.length ≤ (max 0 ((data.length : ℤ) - anchorDays)).toNat := by
    omega
  rw [calculateAnchoredVWAP, List.drop_eq_nil_of_le hle]
  rfl

/-- Witness for C10 at `anchorDays = -1` on a one-bar sequence. -/
theorem anchoredVWAP_nonpositive_anchor_empty_witness :
    (-1 : ℤ) ≤ 0 ∧ calculateAnchoredVWAP [specBar0] (-1) = [] :=
  ⟨by norm_num, anchoredVWAP_nonpositive_anchor_empty [specBar0] (-1) (by norm_num)⟩

/-- The visible-range computation of `StockChart.updateChart`
(`StockChart.tsx` lines 109-138): when there is data, the default logical
range runs from `Math.max(0, heikinAshiData.length - 365)` to
`heikinAshiData.length - 1`. -/
def updateChartVisibleRange (stockData : List HistoricalDataPoint) :
    Option (ℤ × ℤ) :=
  if 0 < stockData.length then
    some (max 0 (((calculateHeikinAshi stockData).length : ℤ) - 365),
      ((calculateHeikinAshi stockData).length : ℤ) - 1)
  else none

/-- C8: for every non-empty bar sequence the default visible-range hint is
the logical index pair `[max(0, N - 365), N - 1]` where `N` is the length
of the derived Heikin-Ashi series. -/
theorem updateChart_default_visible_range (data : List HistoricalDataPoint)
    (h : data ≠ []) :
    updateChartVisibleRange data
      = some (max 0 (((calculateHeikinAshi data).length : ℤ) - 365),
          ((calculateHeikinAshi data).length : ℤ) - 1) := by
  simp [updateChartVisibleRange, List.length_pos.mpr h]

/-- Witness for C8 at a one-bar sequence. -/
theorem updateChart_default_visible_range_witness :
    ([specBar0] : List HistoricalDataPoint) ≠ []
      ∧ updateChartVisibleRange [specBar0]
          = some (max 0 (((calculateHeikinAshi [specBar0]).length : ℤ) - 365),
              ((calculateHeikinAshi [specBar0]).length : ℤ) - 1) :=
  ⟨by simp, updateChart_default_visible_range [specBar0] (by simp)⟩

/-- The `HISTORY_LIMIT` constant from `constants.ts`. -/
def HISTORY_LIMIT : Nat := 300

/-- One raw aggregate record of the provider's `results` array. -/
structure AggItem where
  t : ℤ
  o : ℚ
  h : ℚ
  l : ℚ
  c : ℚ
  v : ℚ
  deriving Repr, DecidableEq, Inhabited

/-- A resolved provider response: HTTP success flag and status, plus the
parsed JSON body; `results = none` models a body whose `results` field is
not an array. -/
structure PolygonResponse where
  ok : Bool
  httpStatus : Nat
  status : String
  error : Option String
  results : Option (List AggItem)
  deriving Repr, DecidableEq, Inhabited

/-- The error thrown by `fetchStockData`, one constructor per throw site. -/
inductive FetchError where
  | httpError (status : Nat)
  | apiError (message : String)
  | unexpectedFormat
  deriving Repr, DecidableEq

/-- The `cachedData` map of `StockDataService`, keyed by symbol. -/
abbrev Cache := List (String × List HistoricalDataPoint)

/-- Result of one `fetchStockData` call: the returned or thrown value, the
cache afterwards, and how many outbound HTTP requests the call issued. -/
structure FetchOutcome where
  result : Except FetchError (List HistoricalDataPoint)
  cache : Cache
  requests : Nat

/-- The record formatter of `fetchStockData` (lines 95-102); `fmt`
abstracts `formatDate(new Date(item.t))`. -/
def formatItem (fmt : ℤ → String) (item : AggItem) : HistoricalDataPoint :=
  { time := fmt item.t, «open» := item.o, high := item.h, low := item.l,
    close := item.c, volume := item.v }

/-- Embedding of `StockDataService.fetchStockData` (`services/stockDataService.ts`
lines 61-113), with the resolved provider response passed as an oracle: a
cached symbol returns at once with no request; otherwise one request is
issued and the response is classified exactly as the code does, caching
the full formatted range but returning only `slice(-HISTORY_LIMIT)`. -/
def fetchStockData (fmt : ℤ → String) (cache : Cache) (symbol : String)
    (resp : PolygonResponse) : FetchOutcome :=
  match cache.lookup symbol with
  | some d => { result := .ok d, cache := cache, requests := 0 }
  | none =>
    if resp.ok = false then
      { result := .error (.httpError resp.httpStatus), cache := cache,
        requests := 1 }
    else if resp.status = "ERROR" then
      { result := .error (.apiError
          (resp.error.getD "Failed to fetch historical data from Polygon.io")),
        cache := cache, requests := 1 }
    else
      match resp.results with
      | none =>
        { result := .error .unexpectedFormat, cache := cache, requests := 1 }
      | some items =>
        let formattedData := items.map (formatItem fmt)
        { result := .ok (formattedData.drop (formattedData.length - HISTORY_LIMIT)),
          cache := (symbol, formattedData) :: cache, requests := 1 }

/-- Run further `fetchStockData` calls in order, threading the cache. -/
def runFetches (fmt : ℤ → String) : Cache → List (String × PolygonResponse) → Cache
  | cache, [] => cache
  | cache, (s, r) :: rest => runFetches fmt (fetchStockData fmt cache s r).cache rest

theorem fetchStockData_cached (fmt : ℤ → String) (cache : Cache) (symbol : String)
    (resp : PolygonResponse) (d : List HistoricalDataPoint)
    (h : cache.lookup symbol = some d) :
    fetchStockData fmt cache symbol resp
      = { result := .ok d, cache := cache, requests := 0 } := by
  simp [fetchStockData, h]

theorem fetchStockData_requests_uncached (fmt : ℤ → String) (cache : Cache)
    (symbol : String) (resp : PolygonResponse)
    (h : cache.lookup symbol = none) :
    (fetchStockData fmt cache symbol resp).requests = 1 := by
  by_cases h1 : resp.ok = false <;> by_cases h2 : resp.status = "ERROR" <;>
    cases h3 : resp.results <;> simp [fetchStockData, h, h1, h2, h3]

theorem fetchStockData_success (fmt : ℤ → String) (cache : Cache)
    (symbol : String) (resp : PolygonResponse) (items : List AggItem)
    (hnc : cache.lookup symbol = none) (hok : resp.ok = true)
    (hst : ¬ resp.status = "ERROR") (hres : resp.results = some items) :
    fetchStockData fmt cache symbol resp
      = { result := .ok ((items.map (formatItem fmt)).drop
            ((items.map (formatItem fmt)).length - HISTORY_LIMIT)),
          cache := (symbol, items.map (formatItem fmt)) :: cache,
          requests := 1 } := by
  simp [fetchStockData, hnc, hok, hst, hres]

theorem fetchStockData_cache_preserves (fmt : ℤ → String) (cache : Cache)
    (s : String) (r : PolygonResponse) (symbol : String)
    (d : List HistoricalDataPoint) (h : cache.lookup symbol = some d) :
    ((fetchStockData fmt cache s r).cache).lookup symbol = some d := by
  cases hs : cache.lookup s with
  | some d2 => rw [fetchStockData_cached fmt cache s r d2 hs]; exact h
  | none =>
    have hne : symbol ≠ s := by
      intro he
      subst he
      rw [h] at hs
      exact Option.noConfusion hs
    have hbe : (symbol == s) = false := beq_eq_false_iff_ne.mpr hne
    by_cases h1 : r.ok = false <;> by_cases h2 : r.status = "ERROR" <;>
      cases h3 : r.results <;>
      simp [fetchStockData, hs, h1, h2, h3, List.lookup, hbe, h]

theorem runFetches_preserves (fmt : ℤ → String)
    (calls : List (String × PolygonResponse)) (cache : Cache) (symbol : String)
    (d : List HistoricalDataPoint) (h : cache.lookup symbol = some d) :
    (runFetches fmt cache calls).lookup symbol = some d := by
  induction calls generalizing cache with
  | nil => exact h
  | cons p rest ih =>
    obtain ⟨s, r⟩ := p
    rw [runFetches]
    exact ih _ (fetchStockData_cache_preserves fmt cache s r symbol d h)

theorem fetchStockData_error_cache_unchanged (fmt : ℤ → String) (cache : Cache)
    (symbol : String) (resp : PolygonResponse) (e : FetchError)
    (h : (fetchStockData fmt cache symbol resp).result = .error e) :
    (fetchStockData fmt cache symbol resp).cache = cache := by
  cases hs : cache.lookup symbol with
  | some d2 => rw [fetchStockData_cached fmt cache symbol resp d2 hs]
  | none =>
    by_cases h1 : resp.ok = false <;> by_cases h2 : resp.status = "ERROR" <;>
      cases h3 : resp.results <;>
      simp [fetchStockData, hs, h1, h2, h3] at h ⊢

/-- C7: with the symbol uncached, `fetchStockData` fails exactly when the
response has a non-success HTTP status, an explicit `ERROR` payload, or a
`results` field that is not an array; on failure the cache is unchanged,
so a later call for the same symbol issues a new outbound request. -/
theorem fetchStockData_failure_classification (fmt : ℤ → String) (cache : Cache)
    (symbol : String) (resp : PolygonResponse)
    (hnc : cache.lookup symbol = none) :
    ((∃ e, (fetchStockData fmt cache symbol resp).result = .error e)
        ↔ (resp.ok = false ∨ resp.status = "ERROR" ∨ resp.results = none))
      ∧ ∀ e, (fetchStockData fmt cache symbol resp).result = .error e →
          (fetchStockData fmt cache symbol resp).cache = cache
            ∧ ∀ resp2,
              (fetchStockData fmt (fetchStockData fmt cache symbol resp).cache
                symbol resp2).requests = 1 := by
  constructor
  · by_cases h1 : resp.ok = false <;> by_cases h2 : resp.status = "ERROR" <;>
      cases h3 : resp.results <;>
      simp [fetchStockData, hnc, h1, h2, h3]
  · intro e he
    have hc := fetchStockData_error_cache_unchanged fmt cache symbol resp e he
    refine ⟨hc, fun resp2 => ?_⟩
    rw [hc]
    exact fetchStockData_requests_uncached fmt cache symbol resp2 hnc

/-- A fixed abstraction of `formatDate` for concrete scenarios. -/
def fmt0 : ℤ → String := fun _ => "1970-01-01"

/-- A concrete raw aggregate record. -/
def item0 : AggItem := { t := 0, o := 1, h := 2, l := 1, c := 2, v := 5 }

/-- A failing concrete response: non-success HTTP status. -/
def respErr : PolygonResponse :=
  { ok := false, httpStatus := 500, status := "OK", error := none, results := none }

/-- Witness for C7: a 500 response for uncached "SMH" fails, leaves the
cache empty, and a retry issues a request again. -/
theorem fetchStockData_failure_classification_witness :
    ([] : Cache).lookup "SMH" = none
      ∧ (((∃ e, (fetchStockData fmt0 [] "SMH" respErr).result = .error e)
            ↔ (respErr.ok = false ∨ respErr.status = "ERROR"
                ∨ respErr.results = none))
          ∧ ∀ e, (fetchStockData fmt0 [] "SMH" respErr).result = .error e →
              (fetchStockData fmt0 [] "SMH" respErr).cache = []
                ∧ ∀ resp2,
                  (fetchStockData fmt0 (fetchStockData fmt0 [] "SMH" respErr).cache
                    "SMH" resp2).requests = 1) :=
  ⟨rfl, fetchStockData_failure_classification fmt0 [] "SMH" respErr rfl⟩

/-- C3: a successful fetch of an uncached symbol issues exactly one
request and caches the symbol; every later call for the same symbol — with
any other fetches in between — returns the cached sequence with zero
outbound requests, so two sequential calls issue exactly one request. -/
theorem fetchStockData_caches_after_success (fmt : ℤ → String) (cache : Cache)
    (symbol : String) (resp : PolygonResponse) (d0 : List HistoricalDataPoint)
    (hnc : cache.lookup symbol = none)
    (hsucc : (fetchStockData fmt cache symbol resp).result = .ok d0) :
    (fetchStockData fmt cache symbol resp).requests = 1
      ∧ ∀ calls resp2, ∃ d,
          (runFetches fmt (fetchStockData fmt cache symbol resp).cache
              calls).lookup symbol = some d
            ∧ fetchStockData fmt
                (runFetches fmt (fetchStockData fmt cache symbol resp).cache calls)
                symbol resp2
                = { result := .ok d,
                    cache := runFetches fmt
                      (fetchStockData fmt cache symbol resp).cache calls,
                    requests := 0 } := by
  refine ⟨fetchStockData_requests_uncached fmt cache symbol resp hnc, ?_⟩
  have hlook : ∃ full,
      ((fetchStockData fmt cache symbol resp).cache).lookup symbol = some full := by
    by_cases h1 : resp.ok = false <;> by_cases h2 : resp.status = "ERROR" <;>
      cases h3 : resp.results <;>
      simp [fetchStockData, hnc, h1, h2, h3, List.lookup] at hsucc ⊢
  obtain ⟨full, hfull⟩ := hlook
  intro calls resp2
  have hrun := runFetches_preserves fmt calls _ symbol full hfull
  exact ⟨full, hrun, fetchStockData_cached fmt _ symbol resp2 full hrun⟩

/-- A successful concrete response carrying one record. -/
def respOK : PolygonResponse :=
  { ok := true, httpStatus := 200, status := "OK", error := none,
    results := some [item0] }

/-- Witness for C3: fetching uncached "SMH" succeeds, and the two
sequential calls issue exactly one outbound request in total. -/
theorem fetchStockData_caches_after_success_witness :
    ([] : Cache).lookup "SMH" = none
      ∧ (fetchStockData fmt0 [] "SMH" respOK).result = .ok [formatItem fmt0 item0]
      ∧ ((fetchStockData fmt0 [] "SMH" respOK).requests = 1
          ∧ ∀ calls resp2, ∃ d,
              (runFetches fmt0 (fetchStockData fmt0 [] "SMH" respOK).cache
                  calls).lookup "SMH" = some d
                ∧ fetchStockData fmt0
                    (runFetches fmt0 (fetchStockData fmt0 [] "SMH" respOK).cache
                      calls) "SMH" resp2
                    = { result := .ok d,
                        cache := runFetches fmt0
                          (fetchStockData fmt0 [] "SMH" respOK).cache calls,
                        requests := 0 })
      ∧ (fetchStockData fmt0 [] "SMH" respOK).requests
          + (fetchStockData fmt0 (fetchStockData fmt0 [] "SMH" respOK).cache
              "SMH" respOK).requests = 1 :=
  ⟨rfl, rfl,
    fetchStockData_caches_after_success fmt0 [] "SMH" respOK
      [formatItem fmt0 item0] rfl rfl, rfl⟩

/-- The length of a returned or thrown `fetchStockData` result. -/
def resultLength : Except FetchError (List HistoricalDataPoint) → Option Nat
  | .ok d => some d.length
  | .error _ => none

/-- A successful concrete response carrying 301 records — one more than
`HISTORY_LIMIT`. -/
def respBig : PolygonResponse :=
  { ok := true, httpStatus := 200, status := "OK", error := none,
    results := some (List.replicate 301 item0) }

set_option maxRecDepth 20000 in
/-- C2 counterexample: with a 301-bar fetched history, the first call
returns the most recent 300 bars but the second, cache-hit call returns
all 301 — so not every successful call returns only the most recent
`HISTORY_LIMIT` bars. -/
theorem fetchStockData_cacheHit_exceeds_limit :
    HISTORY_LIMIT = 300
      ∧ resultLength (fetchStockData fmt0 [] "SMH" respBig).result = some 300
      ∧ resultLength (fetchStockData fmt0
          (fetchStockData fmt0 [] "SMH" respBig).cache "SMH" respBig).result
          = some 301 :=
  ⟨rfl, rfl, rfl⟩

/-- C2 (amended): the first, fetching call returns only
`slice(-HISTORY_LIMIT)` of the formatted history while the cache entry
retains the full fetched range; every subsequent cache-hit call returns
that full cached range, not the `HISTORY_LIMIT` slice. -/
theorem fetchStockData_slice_only_on_first_fetch (fmt : ℤ → String)
    (cache : Cache) (symbol : String) (resp : PolygonResponse)
    (items : List AggItem) (hnc : cache.lookup symbol = none)
    (hok : resp.ok = true) (hst : ¬ resp.status = "ERROR")
    (hres : resp.results = some items) :
    (fetchStockData fmt cache symbol resp).result
        = .ok ((items.map (formatItem fmt)).drop
            ((items.map (formatItem fmt)).length - HISTORY_LIMIT))
      ∧ ((fetchStockData fmt cache symbol resp).cache).lookup symbol
          = some (items.map (formatItem fmt))
      ∧ ∀ resp2,
          fetchStockData fmt (fetchStockData fmt cache symbol resp).cache
              symbol resp2
            = { result := .ok (items.map (formatItem fmt)),
                cache := (fetchStockData fmt cache symbol resp).cache,
                requests := 0 } := by
  have hsucc := fetchStockData_success fmt cache symbol resp items hnc hok hst hres
  rw [hsucc]
  have hlook : (((symbol, items.map (formatItem fmt)) :: cache) : Cache).lookup
      symbol = some (items.map (formatItem fmt)) := by
    simp [List.lookup]
  exact ⟨rfl, hlook, fun resp2 => fetchStockData_cached fmt _ symbol resp2 _ hlook⟩

/-- Witness for the amended C2 at the 301-record response. -/
theorem fetchStockData_slice_only_on_first_fetch_witness :
    ([] : Cache).lookup "SMH" = none
      ∧ ((fetchStockData fmt0 [] "SMH" respBig).result
            = .ok (((List.replicate 301 item0).map (formatItem fmt0)).drop
                (((List.replicate 301 item0).map (formatItem fmt0)).length
                  - HISTORY_LIMIT))
          ∧ ((fetchStockData fmt0 [] "SMH" respBig).cache).lookup "SMH"
              = some ((List.replicate 301 item0).map (formatItem fmt0))
          ∧ ∀ resp2,
              fetchStockData fmt0 (fetchStockData fmt0 [] "SMH" respBig).cache
                  "SMH" resp2
                = { result := .ok ((List.replicate 301 item0).map (formatItem fmt0)),
                    cache := (fetchStockData fmt0 [] "SMH" respBig).cache,
                    requests := 0 }) :=
  ⟨rfl, fetchStockData_slice_only_on_first_fetch fmt0 [] "SMH" respBig
    (List.replicate 301 item0) rfl rfl (by decide) rfl⟩

end SMH
